import Mathlib

/-!
Shallow embedding of the per-connection core of the laminar transport
library: the metrics handler (src/infrastructure/metrics.rs) and the
connection state machine glue (src/net/connection_impl.rs).

Modelling conventions:
* Rust `f32` values are modelled as exact rationals (ℚ); floating-point
  rounding is not modelled.
* `Instant` timestamps and `Duration`s are modelled as natural numbers
  (seconds); `Instant::duration_since` / `elapsed` become truncated
  subtraction on ℕ.
* The metrics counter is a `u32` in the source; its wraparound (which
  would need 2^32 snapshot calls, one per second, to occur) is not
  modelled, so it is a plain ℕ here.
-/

namespace Laminar

/-- Snapshot / frame of metric counters, mirroring `struct Metrics` in
src/infrastructure/metrics.rs (all fields are `f32` there, ℚ here). -/
structure Metrics where
  sent_packets : ℚ
  received_packets : ℚ
  sent_kbps : ℚ
  receive_kbps : ℚ
  packet_loss : ℚ
  rtt : ℚ
deriving Repr, DecidableEq

/-- The `Default` impl of `Metrics`: all fields zero. -/
def Metrics.zero : Metrics :=
  { sent_packets := 0, received_packets := 0, sent_kbps := 0
    receive_kbps := 0, packet_loss := 0, rtt := 0 }

/-- The smoothing constant `FACTOR` of src/infrastructure/metrics.rs. -/
def FACTOR : ℕ := 2

/-- State of `struct MetricsHandler` in src/infrastructure/metrics.rs. -/
structure MetricsHandler where
  current_frame : Metrics
  current_averages : Metrics
  counter : ℕ
deriving Repr, DecidableEq

/-- The constructor `MetricsHandler::new`. -/
def MetricsHandler.new : MetricsHandler :=
  { current_frame := Metrics.zero, current_averages := Metrics.zero, counter := 0 }

/-- Embeds `MetricsHandler::record_sent_info`. -/
def record_sent_info (h : MetricsHandler) (sent_bytes : ℕ) : MetricsHandler :=
  { h with current_frame :=
    { h.current_frame with
      sent_kbps := h.current_frame.sent_kbps + (sent_bytes : ℚ) / 1000
      sent_packets := h.current_frame.sent_packets + 1 } }

/-- Embeds `MetricsHandler::record_receive_info`. -/
def record_receive_info (h : MetricsHandler) (receive_bytes : ℕ) : MetricsHandler :=
  { h with current_frame :=
    { h.current_frame with
      receive_kbps := h.current_frame.receive_kbps + (receive_bytes : ℚ) / 1000
      received_packets := h.current_frame.received_packets + 1 } }

/-- Embeds `MetricsHandler::record_packet_loss`. -/
def record_packet_loss (h : MetricsHandler) (dropped_packets_count : ℕ) : MetricsHandler :=
  { h with current_frame :=
    { h.current_frame with
      packet_loss := h.current_frame.packet_loss + (dropped_packets_count : ℚ) } }

/-- Embeds `MetricsHandler::record_rtt`: the sample is added as its
absolute value (the source comment notes rtt can be negative). -/
def record_rtt (h : MetricsHandler) (rtt : ℚ) : MetricsHandler :=
  { h with current_frame :=
    { h.current_frame with rtt := h.current_frame.rtt + |rtt| } }

/-- Embeds the private method `MetricsHandler::average`:
`average + (new_value - average) / min(self.counter, FACTOR)`.  The
counter is passed explicitly because the source reads `self.counter`
after it has been incremented by `calculate_output`. -/
def average (counter : ℕ) (new_value avg : ℚ) : ℚ :=
  avg + (new_value - avg) / ((min counter FACTOR : ℕ) : ℚ)

/-- The guarded packet-loss term of `calculate_output`: the frame loss
count divided by the frame sent count when the latter is positive,
otherwise 0. -/
def lossInput (frame : Metrics) : ℚ :=
  if frame.sent_packets > 0 then frame.packet_loss / frame.sent_packets else 0

/-- Embeds `MetricsHandler::calculate_output`: increments the counter,
smooths each frame value against the previous averages, stores the new
averages, resets the frame to the default and returns the new averages. -/
def calculate_output (h : MetricsHandler) : Metrics × MetricsHandler :=
  let counter := h.counter + 1
  let avgs : Metrics :=
    { sent_packets := average counter h.current_frame.sent_packets h.current_averages.sent_packets
      received_packets :=
        average counter h.current_frame.received_packets h.current_averages.received_packets
      sent_kbps := average counter h.current_frame.sent_kbps h.current_averages.sent_kbps
      receive_kbps := average counter h.current_frame.receive_kbps h.current_averages.receive_kbps
      packet_loss := average counter (lossInput h.current_frame) h.current_averages.packet_loss
      rtt := average counter h.current_frame.rtt h.current_averages.rtt }
  (avgs, { current_frame := Metrics.zero, current_averages := avgs, counter := counter })

/-! Connection-level types.  The wire-facing types (`DeliveryGuarantee`,
`OrderingGuarantee`, `PacketType`, `PacketInfo`, `SentPacket`, the user
`Packet` and `SocketEvent`) live in modules of this repository that are
not part of the visible corpus; they are modelled from the spec, which
lists their shapes, below.  `SocketAddr` is modelled as ℕ. -/

/-- Modelled from the spec: the delivery guarantee of a message, either
requiring acknowledgment/retransmission (reliable) or not (unreliable). -/
inductive DeliveryGuarantee
  | Unreliable
  | Reliable
deriving Repr, DecidableEq

/-- Modelled from the spec: the ordering guarantee of a message —
ordered, sequenced (only newer-than-last), or no constraint. -/
inductive OrderingGuarantee
  | unordered
  | sequenced
  | ordered
deriving Repr, DecidableEq

/-- Modelled from the spec: the packet type carried in the wire header
(data / heartbeat / fragment). -/
inductive PacketType
  | data
  | heartbeat
  | fragment
deriving Repr, DecidableEq

/-- Modelled from the spec: `PacketInfo` (crate::packet), the descriptor
handed to the missing `process_outgoing` — packet type, raw payload,
delivery guarantee and ordering guarantee, as used by
src/net/connection_impl.rs. -/
structure PacketInfo where
  packet_type : PacketType
  payload : List ℕ
  delivery : DeliveryGuarantee
  ordering : OrderingGuarantee
deriving Repr, DecidableEq

/-- Modelled from the spec: `PacketInfo::user_packet` builds a data
packet from a user payload and its requested guarantees. -/
def PacketInfo.user_packet (payload : List ℕ) (delivery : DeliveryGuarantee)
    (ordering : OrderingGuarantee) : PacketInfo :=
  { packet_type := PacketType.data, payload := payload
    delivery := delivery, ordering := ordering }

/-- Modelled from the spec: `PacketInfo::heartbeat_packet` builds an
unreliable, unordered heartbeat packet with the given payload
(src/net/connection_impl.rs calls it with an empty payload). -/
def PacketInfo.heartbeat_packet (payload : List ℕ) : PacketInfo :=
  { packet_type := PacketType.heartbeat, payload := payload
    delivery := DeliveryGuarantee.Unreliable, ordering := OrderingGuarantee.unordered }

/-- Modelled from the spec: a Sent Packet Record of the Acknowledgment
Handler — sequence number, raw payload, send timestamp, delivery
guarantee, ordering guarantee, packet type and optional item
identifier.  src/net/connection_impl.rs reads `packet_type`, `payload`,
`ordering_guarantee` and `item_identifier` from it when resending. -/
structure SentPacket where
  sequence : ℕ
  payload : List ℕ
  sent_time : ℕ
  delivery_guarantee : DeliveryGuarantee
  ordering_guarantee : OrderingGuarantee
  packet_type : PacketType
  item_identifier : Option ℕ
deriving Repr, DecidableEq

/-- Modelled from the spec: a user packet (the `SendEvent` of the
connection) — destination address, payload, and the requested delivery
and ordering guarantees. -/
structure Packet where
  addr : ℕ
  payload : List ℕ
  delivery : DeliveryGuarantee
  ordering : OrderingGuarantee
deriving Repr, DecidableEq

/-- Modelled from the spec: the connection-event taxonomy emitted to the
application (Connect, Disconnect, Timeout, Packet, Metrics), each
carrying the remote address. -/
inductive SocketEvent
  | Packet (p : Laminar.Packet)
  | Connect (addr : ℕ)
  | Timeout (addr : ℕ)
  | Disconnect (addr : ℕ)
  | Metrics (addr : ℕ) (m : Laminar.Metrics)
deriving Repr, DecidableEq

/-- Configuration fields read by src/net/connection_impl.rs through the
messenger: max packets in flight, idle connection timeout, optional
heartbeat interval (durations in seconds). -/
structure Config where
  max_packets_in_flight : ℕ
  idle_connection_timeout : ℕ
  heartbeat_interval : Option ℕ
deriving Repr, DecidableEq

/-- Modelled from the spec: per-connection state owned by the missing
virtual-connection internals and only read (never written) by
src/net/connection_impl.rs — last-heard timestamp, in-flight count of
the Acknowledgment Handler, and the Metrics Handler. -/
structure InnerState where
  last_heard_at : ℕ
  packets_in_flight : ℕ
  metrics : MetricsHandler
deriving Repr, DecidableEq

/-- Modelled from the spec: the Virtual Connection state — remote
address, the two direction flags whose conjunction is establishment,
last-sent and last-metrics-emit timestamps, and the inner component
state. -/
structure VirtualConnection where
  remote_address : ℕ
  ever_sent : Bool
  ever_recvd : Bool
  last_sent_at : ℕ
  last_metric : ℕ
  inner : InnerState
deriving Repr, DecidableEq

/-- Modelled from the spec: a connection is established iff it has both
sent and received at least one packet. -/
def is_established (c : VirtualConnection) : Bool :=
  c.ever_sent && c.ever_recvd

/-- Modelled from the spec: time elapsed since the last received packet
(`VirtualConnection::last_heard`), as truncated ℕ subtraction. -/
def last_heard (c : VirtualConnection) (time : ℕ) : ℕ :=
  time - c.inner.last_heard_at

/-- Modelled from the spec: time elapsed since the last sent packet
(`VirtualConnection::last_sent`), as truncated ℕ subtraction. -/
def last_sent (c : VirtualConnection) (time : ℕ) : ℕ :=
  time - c.last_sent_at

/-- Modelled from the spec: `record_recv` marks the receive direction as
having occurred and returns whether this call just established the
connection (not established before, established after). -/
def record_recv (c : VirtualConnection) : Bool × VirtualConnection :=
  let was := is_established c
  let c' := { c with ever_recvd := true }
  ((!was) && is_established c', c')

/-- Modelled from the spec: `record_send` marks the send direction as
having occurred and returns whether this call just established the
connection. -/
def record_send (c : VirtualConnection) : Bool × VirtualConnection :=
  let was := is_established c
  let c' := { c with ever_sent := true }
  ((!was) && is_established c', c')

/-- Observable effects of the state machine on its messenger: an
invocation of the missing `process_outgoing` (recorded with the
`PacketInfo` and item identifier it was given), a raw wire send
(`messenger.send_packet`), or a connection event
(`messenger.send_event`). -/
inductive Action
  | outgoingCall (info : PacketInfo) (item_identifier : Option ℕ)
  | sendPacket (addr : ℕ) (contents : List ℕ)
  | sendEvent (addr : ℕ) (ev : SocketEvent)
deriving Repr, DecidableEq

/-- Result type of the missing `process_outgoing`: on success, the
serialized contents of each resulting wire packet; on failure, an
opaque error (which src/net/connection_impl.rs only logs).  Its
internal state effects (sequence assignment, acknowledgment
registration) are not observed by the code under src/. -/
def OutgoingFn : Type :=
  PacketInfo → Option ℕ → ℕ → Except Unit (List (List ℕ))

/-- Embeds the helper `send_packets` of src/net/connection_impl.rs: on
success every outgoing packet's contents are sent to the address; an
error is only logged, producing no action. -/
def send_packets (address : ℕ) (packets : Except Unit (List (List ℕ))) : List Action :=
  match packets with
  | Except.ok ps => ps.map (fun contents => Action.sendPacket address contents)
  | Except.error _ => []

/-- Embeds `Connection::should_drop` of src/net/connection_impl.rs:
computes `packets_over` and `timed_out`, and when their disjunction
holds emits a Timeout event, followed by a Disconnect event when the
connection is established; logging is not modelled.  Returns the
boolean together with the emitted events. -/
def should_drop (c : VirtualConnection) (cfg : Config) (time : ℕ) :
    Bool × List Action :=
  let packets_over : Bool := decide (c.inner.packets_in_flight > cfg.max_packets_in_flight)
  let timed_out : Bool := decide (last_heard c time ≥ cfg.idle_connection_timeout)
  let sd := packets_over || timed_out
  if sd then
    (sd, Action.sendEvent c.remote_address (SocketEvent.Timeout c.remote_address) ::
      (if is_established c then
        [Action.sendEvent c.remote_address (SocketEvent.Disconnect c.remote_address)]
      else []))
  else (sd, [])

/-- Result type of the missing `process_incoming`: given the inner
state, the payload and the time, either the list of complete logical
packets it yields together with the updated inner state, or an opaque
error (which src/net/connection_impl.rs only logs, keeping the
pre-call state). -/
def IncomingFn : Type :=
  InnerState → List ℕ → ℕ → Except Unit (List Packet × InnerState)

/-- Embeds `Connection::process_packet` of src/net/connection_impl.rs:
an empty payload is only logged (ReceivedDataToShort) with no state
change; otherwise the payload is handed to `process_incoming` — on
success, a Connect event is emitted when `record_recv` reports the
connection just became established, then one Packet event per incoming
logical packet; on error, the error is only logged. -/
def process_packet (c : VirtualConnection) (pi : IncomingFn)
    (payload : List ℕ) (time : ℕ) : VirtualConnection × List Action :=
  if payload ≠ [] then
    match pi c.inner payload time with
    | Except.ok (packets, inner') =>
      let c1 := { c with inner := inner' }
      let (just, c2) := record_recv c1
      (c2,
        (if just then
          [Action.sendEvent c.remote_address (SocketEvent.Connect c.remote_address)]
        else []) ++
        packets.map (fun incoming =>
          Action.sendEvent c.remote_address (SocketEvent.Packet incoming)))
    | Except.error _ => (c, [])
  else (c, [])

/-- Embeds `Connection::process_event` of src/net/connection_impl.rs:
emits a Connect event when `record_send` reports the connection just
became established, then hands the user packet's payload and guarantees
to `process_outgoing` and dispatches the resulting wire packets. -/
def process_event (c : VirtualConnection) (po : OutgoingFn)
    (event : Packet) (time : ℕ) : VirtualConnection × List Action :=
  let addr := c.remote_address
  let (just, c1) := record_send c
  let info := PacketInfo.user_packet event.payload event.delivery event.ordering
  (c1,
    (if just then [Action.sendEvent addr (SocketEvent.Connect addr)] else []) ++
    (Action.outgoingCall info none :: send_packets addr (po info none time)))

/-- The retransmission descriptor built by `Connection::update` for a
dropped record: same packet type, payload and ordering guarantee as the
record, with delivery hard-wired to Reliable (the source comments that a
delivery guarantee is only sent with reliable packets). -/
def resendInfo (r : SentPacket) : PacketInfo :=
  { packet_type := r.packet_type, payload := r.payload
    delivery := DeliveryGuarantee.Reliable, ordering := r.ordering_guarantee }

/-- Step 1 of `Connection::update`: for every record returned by
`gather_dropped_packets` (passed here as the list `dropped`), call
`process_outgoing` with its retransmission descriptor and original item
identifier and dispatch the resulting wire packets. -/
def resendStep (addr : ℕ) (dropped : List SentPacket) (po : OutgoingFn)
    (time : ℕ) : List Action :=
  dropped.flatMap (fun r =>
    Action.outgoingCall (resendInfo r) r.item_identifier ::
      send_packets addr (po (resendInfo r) r.item_identifier time))

/-- Step 2 of `Connection::update`: when the connection is established,
a heartbeat interval is configured and the time since the last send is
at least that interval, call `process_outgoing` with an empty heartbeat
packet and dispatch the resulting wire packets. -/
def heartbeatStep (c : VirtualConnection) (cfg : Config) (po : OutgoingFn)
    (time : ℕ) : List Action :=
  if is_established c then
    match cfg.heartbeat_interval with
    | some heartbeat_interval =>
      if last_sent c time ≥ heartbeat_interval then
        Action.outgoingCall (PacketInfo.heartbeat_packet []) none ::
          send_packets c.remote_address (po (PacketInfo.heartbeat_packet []) none time)
      else []
    | none => []
  else []

/-- Step 3 of `Connection::update`: when at least one second elapsed
since `last_metric`, pull a snapshot from the metrics handler, emit it
as a Metrics event and reset `last_metric` to the current instant
(`now` models the `Instant::now()` the source reads here). -/
def metricsStep (c : VirtualConnection) (now : ℕ) :
    VirtualConnection × List Action :=
  if now - c.last_metric ≥ 1 then
    let out := calculate_output c.inner.metrics
    ({ c with inner := { c.inner with metrics := out.2 }, last_metric := now },
      [Action.sendEvent c.remote_address
        (SocketEvent.Metrics c.remote_address out.1)])
  else (c, [])

/-- Embeds `Connection::update` of src/net/connection_impl.rs: resend
the dropped records, then send a heartbeat if required, then emit the
metrics snapshot if required; the action trace is the concatenation of
the three steps in that order. -/
def update (c : VirtualConnection) (cfg : Config) (dropped : List SentPacket)
    (po : OutgoingFn) (time now : ℕ) : VirtualConnection × List Action :=
  let tr1 := resendStep c.remote_address dropped po time
  let tr2 := heartbeatStep c cfg po time
  let (c', tr3) := metricsStep c now
  (c', tr1 ++ tr2 ++ tr3)

/-! Derived observations and concrete sample data used by the theorems
below. -/

/-- The sequence of `process_outgoing` invocations (descriptor and item
identifier) recorded in an action trace. -/
def callsOf (tr : List Action) : List (PacketInfo × Option ℕ) :=
  tr.filterMap (fun a =>
    match a with
    | Action.outgoingCall info ident => some (info, ident)
    | _ => none)

/-- Recognizes a Connect event in an action trace. -/
def isConnect : Action → Bool
  | Action.sendEvent _ (SocketEvent.Connect _) => true
  | _ => false

/-- Recognizes a raw wire send in an action trace. -/
def isWireSend : Action → Bool
  | Action.sendPacket _ _ => true
  | _ => false

/-- Sample configuration: at most 2 packets in flight, 10 s idle
timeout, 3 s heartbeat interval. -/
def cfg0 : Config :=
  { max_packets_in_flight := 2, idle_connection_timeout := 10
    heartbeat_interval := some 3 }

/-- Sample established connection with one packet in flight. -/
def conn0 : VirtualConnection :=
  { remote_address := 7, ever_sent := true, ever_recvd := true
    last_sent_at := 0, last_metric := 0
    inner := { last_heard_at := 0, packets_in_flight := 1, metrics := MetricsHandler.new } }

/-- Sample established connection one packet over the in-flight limit. -/
def connOver : VirtualConnection :=
  { conn0 with inner := { conn0.inner with packets_in_flight := 3 } }

/-- Sample connection that has sent but never received. -/
def connHalf : VirtualConnection :=
  { conn0 with ever_recvd := false }

/-- Sample connection that has received but never sent. -/
def connRecvOnly : VirtualConnection :=
  { conn0 with ever_sent := false }

/-- Sample user packet. -/
def pkt0 : Packet :=
  { addr := 7, payload := [1, 2], delivery := DeliveryGuarantee.Reliable
    ordering := OrderingGuarantee.ordered }

/-- Sample sent-packet record awaiting acknowledgment. -/
def record0 : SentPacket :=
  { sequence := 5, payload := [9], sent_time := 0
    delivery_guarantee := DeliveryGuarantee.Reliable
    ordering_guarantee := OrderingGuarantee.sequenced
    packet_type := PacketType.data, item_identifier := some 4 }

/-- Sample incoming processor that succeeds with one logical packet. -/
def okIncoming : IncomingFn := fun s _ _ => Except.ok ([pkt0], s)

/-- Sample incoming processor that fails. -/
def errIncoming : IncomingFn := fun _ _ _ => Except.error ()

/-- Sample outgoing processor that yields one wire packet. -/
def okOutgoing : OutgoingFn := fun _ _ _ => Except.ok [[0, 1]]

/-- Metrics handler after recording ten sent packets of 100 bytes from a
fresh state. -/
def tenSends : MetricsHandler :=
  record_sent_info (record_sent_info (record_sent_info (record_sent_info
    (record_sent_info (record_sent_info (record_sent_info (record_sent_info
      (record_sent_info (record_sent_info MetricsHandler.new 100) 100) 100) 100)
        100) 100) 100) 100) 100) 100

/-- Metrics handler with an empty current frame but a nonzero previous
snapshot (one earlier output has been produced). -/
def staleHandler : MetricsHandler :=
  { current_frame := Metrics.zero
    current_averages := { Metrics.zero with sent_packets := 10 }
    counter := 1 }

/-! Theorems. -/

/-- C1: `should_drop` returns true iff the in-flight count strictly
exceeds `max_packets_in_flight` or the time since the last received
packet is at least `idle_connection_timeout`; when true it emits
exactly one Timeout event and exactly one Disconnect event iff the
connection is established (and nothing else), and when false it emits
no events.  An in-flight count one below the limit (with no idle
timeout) does not drop the connection; one packet above the limit
does. -/
theorem should_drop_characterization (c : VirtualConnection) (cfg : Config) (time : ℕ) :
    ((should_drop c cfg time).1 = true ↔
      c.inner.packets_in_flight > cfg.max_packets_in_flight ∨
        last_heard c time ≥ cfg.idle_connection_timeout) ∧
    ((should_drop c cfg time).1 = true →
      (should_drop c cfg time).2.count
          (Action.sendEvent c.remote_address (SocketEvent.Timeout c.remote_address)) = 1 ∧
      (should_drop c cfg time).2.count
          (Action.sendEvent c.remote_address (SocketEvent.Disconnect c.remote_address)) =
        (if is_established c then 1 else 0) ∧
      (should_drop c cfg time).2.length = (if is_established c then 2 else 1)) ∧
    ((should_drop c cfg time).1 = false → (should_drop c cfg time).2 = []) ∧
    (c.inner.packets_in_flight + 1 = cfg.max_packets_in_flight →
      last_heard c time < cfg.idle_connection_timeout →
      (should_drop c cfg time).1 = false) ∧
    (c.inner.packets_in_flight = cfg.max_packets_in_flight + 1 →
      (should_drop c cfg time).1 = true) := by
  by_cases hp : cfg.max_packets_in_flight < c.inner.packets_in_flight <;>
    by_cases ht : cfg.idle_connection_timeout ≤ last_heard c time <;>
      by_cases he : is_established c = true <;>
        simp [should_drop, hp, ht, he, List.count_cons] <;>
          omega

/-- Witness for C1: the over-limit established connection is dropped
with one Timeout and one Disconnect event at time 5; the connection one
packet below the limit is not dropped. -/
theorem should_drop_characterization_witness :
    ((should_drop connOver cfg0 5).2.count
        (Action.sendEvent connOver.remote_address
          (SocketEvent.Timeout connOver.remote_address)) = 1 ∧
      (should_drop connOver cfg0 5).2.count
        (Action.sendEvent connOver.remote_address
          (SocketEvent.Disconnect connOver.remote_address)) =
        (if is_established connOver then 1 else 0) ∧
      (should_drop connOver cfg0 5).2.length =
        (if is_established connOver then 2 else 1)) ∧
    (should_drop conn0 cfg0 5).1 = false :=
  ⟨(should_drop_characterization connOver cfg0 5).2.1 (by decide),
    (should_drop_characterization conn0 cfg0 5).2.2.2.1 (by decide) (by decide)⟩

/-- C2: `process_packet` on an empty payload only logs the
ReceivedDataToShort violation — it emits no action and leaves the
connection unchanged; and when processing a non-empty payload fails,
the error is only logged, the payload is discarded, no action is
emitted and the connection is unchanged.  In particular neither failure
emits a Timeout or Disconnect event: only the drop predicate
(`should_drop`) does that. -/
theorem process_packet_failure_policy (c : VirtualConnection) (pi : IncomingFn)
    (payload : List ℕ) (time : ℕ) :
    process_packet c pi [] time = (c, []) ∧
    (payload ≠ [] → pi c.inner payload time = Except.error () →
      process_packet c pi payload time = (c, [])) := by
  refine ⟨by simp [process_packet], fun hne herr => ?_⟩
  simp [process_packet, hne, herr]

/-- Witness for C2: a failing processor on payload `[3]` leaves the
sample connection untouched and emits nothing. -/
theorem process_packet_failure_policy_witness :
    process_packet conn0 errIncoming [3] 1 = (conn0, []) :=
  (process_packet_failure_policy conn0 errIncoming [3] 1).2 (by decide) rfl

/-- Wire sends carry no `process_outgoing` invocation record. -/
theorem callsOf_send_packets (addr : ℕ) (ps : Except Unit (List (List ℕ))) :
    callsOf (send_packets addr ps) = [] := by
  cases ps with
  | ok l => simp [send_packets, callsOf, List.filterMap_map, Function.comp]
  | error e => rfl

/-- The `process_outgoing` invocations of the resend step are exactly
one per dropped record, in order, with that record's retransmission
descriptor and item identifier. -/
theorem callsOf_resendStep (addr : ℕ) (dropped : List SentPacket)
    (po : OutgoingFn) (time : ℕ) :
    callsOf (resendStep addr dropped po time) =
      dropped.map (fun r => (resendInfo r, r.item_identifier)) := by
  induction dropped with
  | nil => rfl
  | cons r rs ih =>
    have hs := callsOf_send_packets addr (po (resendInfo r) r.item_identifier time)
    simp only [callsOf] at hs ih ⊢
    simp only [resendStep, List.flatMap_cons, List.filterMap_append,
      List.filterMap_cons, List.map_cons] at ih ⊢
    simp [hs, ih]

/-- C3: on every tick the resend step comes first in the update trace,
makes exactly one `process_outgoing` call per record returned by
`gather_dropped_packets` (in order), and each call reuses the record's
packet type, payload, ordering guarantee and item identifier, with
delivery Reliable — which equals the record's original delivery
guarantee, every record awaiting acknowledgment being reliable. -/
theorem update_resends_dropped (c : VirtualConnection) (cfg : Config)
    (dropped : List SentPacket) (po : OutgoingFn) (time now : ℕ) :
    (∃ rest, (update c cfg dropped po time now).2 =
      resendStep c.remote_address dropped po time ++ rest) ∧
    callsOf (resendStep c.remote_address dropped po time) =
      dropped.map (fun r => (resendInfo r, r.item_identifier)) ∧
    (∀ r ∈ dropped,
      (resendInfo r).packet_type = r.packet_type ∧
      (resendInfo r).payload = r.payload ∧
      (resendInfo r).ordering = r.ordering_guarantee ∧
      (r.delivery_guarantee = DeliveryGuarantee.Reliable →
        (resendInfo r).delivery = r.delivery_guarantee)) := by
  refine ⟨⟨heartbeatStep c cfg po time ++ (metricsStep c now).2, ?_⟩,
    callsOf_resendStep c.remote_address dropped po time, fun r _ => ?_⟩
  · simp [update, List.append_assoc]
  · exact ⟨rfl, rfl, rfl, fun h => by simp [resendInfo, h]⟩

/-- Witness for C3: with a single reliable dropped record, the update
trace starts with its retransmission call reusing its guarantees and
item identifier. -/
theorem update_resends_dropped_witness :
    callsOf (resendStep conn0.remote_address [record0] okOutgoing 2) =
      [(resendInfo record0, record0.item_identifier)] ∧
    (resendInfo record0).ordering = record0.ordering_guarantee ∧
    (resendInfo record0).delivery = record0.delivery_guarantee :=
  ⟨(update_resends_dropped conn0 cfg0 [record0] okOutgoing 2 0).2.1,
    ((update_resends_dropped conn0 cfg0 [record0] okOutgoing 2 0).2.2 record0
      (by simp)).2.2.1,
    ((update_resends_dropped conn0 cfg0 [record0] okOutgoing 2 0).2.2 record0
      (by simp)).2.2.2 rfl⟩

/-- C4: within one `update` call the action trace is the resend step,
then the heartbeat step, then the metrics step, in that order; when at
least one second elapsed since the last metrics emission, the metrics
step emits exactly the snapshot pulled from the metrics handler and
resets the emission timer and handler state, and otherwise it does
nothing. -/
theorem update_step_order (c : VirtualConnection) (cfg : Config)
    (dropped : List SentPacket) (po : OutgoingFn) (time now : ℕ) :
    (update c cfg dropped po time now).2 =
      resendStep c.remote_address dropped po time ++
        heartbeatStep c cfg po time ++ (metricsStep c now).2 ∧
    (update c cfg dropped po time now).1 = (metricsStep c now).1 ∧
    (now - c.last_metric ≥ 1 →
      (metricsStep c now).2 =
        [Action.sendEvent c.remote_address
          (SocketEvent.Metrics c.remote_address (calculate_output c.inner.metrics).1)] ∧
      (metricsStep c now).1.last_metric = now ∧
      (metricsStep c now).1.inner.metrics = (calculate_output c.inner.metrics).2) ∧
    (now - c.last_metric < 1 → metricsStep c now = (c, [])) := by
  refine ⟨by simp [update], by simp [update], fun h => ?_, fun h => ?_⟩
  · simp [metricsStep, h]
  · simp [metricsStep, Nat.not_le.mpr h]

/-- Witness for C4: at time 5 the sample connection's metrics step
emits the snapshot and resets the timer; at time 0 it does nothing. -/
theorem update_step_order_witness :
    (metricsStep conn0 5).2 =
      [Action.sendEvent conn0.remote_address
        (SocketEvent.Metrics conn0.remote_address
          (calculate_output conn0.inner.metrics).1)] ∧
    metricsStep conn0 0 = (conn0, []) :=
  ⟨((update_step_order conn0 cfg0 [] okOutgoing 0 5).2.2.1 (by decide)).1,
    (update_step_order conn0 cfg0 [] okOutgoing 0 0).2.2.2 (by decide)⟩

/-- C5: within the `update` trace the heartbeat step is nonempty iff
the connection is established, a heartbeat interval is configured and
the time since the last send is at least that interval; in that case it
consists of exactly the `process_outgoing` call for a heartbeat packet
with an empty payload followed by the resulting wire sends. -/
theorem update_heartbeat_iff (c : VirtualConnection) (cfg : Config)
    (dropped : List SentPacket) (po : OutgoingFn) (time now : ℕ) :
    (update c cfg dropped po time now).2 =
      resendStep c.remote_address dropped po time ++
        heartbeatStep c cfg po time ++ (metricsStep c now).2 ∧
    (heartbeatStep c cfg po time ≠ [] ↔
      is_established c = true ∧
        ∃ hi, cfg.heartbeat_interval = some hi ∧ last_sent c time ≥ hi) ∧
    (∀ hi, is_established c = true → cfg.heartbeat_interval = some hi →
      last_sent c time ≥ hi →
      heartbeatStep c cfg po time =
        Action.outgoingCall (PacketInfo.heartbeat_packet []) none ::
          send_packets c.remote_address (po (PacketInfo.heartbeat_packet []) none time)) ∧
    (PacketInfo.heartbeat_packet []).payload = [] := by
  refine ⟨by simp [update], ?_, ?_, rfl⟩
  · by_cases he : is_established c = true
    · cases hhb : cfg.heartbeat_interval with
      | none => simp [heartbeatStep, he, hhb]
      | some hi =>
        by_cases hl : last_sent c time ≥ hi
        · simp [heartbeatStep, he, hhb, hl]
        · simp [heartbeatStep, he, hhb, hl]
    · simp [heartbeatStep, he]
  · intro hi he hhb hl
    simp [heartbeatStep, he, hhb, hl]

/-- Witness for C5: the established sample connection with a 3 s
heartbeat interval sends a heartbeat at time 4 (last send at 0). -/
theorem update_heartbeat_iff_witness :
    heartbeatStep conn0 cfg0 okOutgoing 4 =
      Action.outgoingCall (PacketInfo.heartbeat_packet []) none ::
        send_packets conn0.remote_address
          (okOutgoing (PacketInfo.heartbeat_packet []) none 4) :=
  (update_heartbeat_iff conn0 cfg0 [] okOutgoing 4 0).2.2.1 3 (by decide) rfl
    (by decide)

/-- C6: `calculate_output` smooths every metric by the recurrence
`avg + (new − avg) / min(samples_seen, 2)` where `samples_seen` counts
the calls so far including the current one; the first call (divisor 1)
returns the unsmoothed frame values, so after ten sent packets of 100
bytes on a fresh handler it returns `sent_packets = 10` and
`sent_kbps = 1`; every later call has divisor 2. -/
theorem calculate_output_smoothing (h : MetricsHandler) :
    (calculate_output h).1 =
      { sent_packets := h.current_averages.sent_packets +
          (h.current_frame.sent_packets - h.current_averages.sent_packets) /
            ((min (h.counter + 1) 2 : ℕ) : ℚ)
        received_packets := h.current_averages.received_packets +
          (h.current_frame.received_packets - h.current_averages.received_packets) /
            ((min (h.counter + 1) 2 : ℕ) : ℚ)
        sent_kbps := h.current_averages.sent_kbps +
          (h.current_frame.sent_kbps - h.current_averages.sent_kbps) /
            ((min (h.counter + 1) 2 : ℕ) : ℚ)
        receive_kbps := h.current_averages.receive_kbps +
          (h.current_frame.receive_kbps - h.current_averages.receive_kbps) /
            ((min (h.counter + 1) 2 : ℕ) : ℚ)
        packet_loss := h.current_averages.packet_loss +
          (lossInput h.current_frame - h.current_averages.packet_loss) /
            ((min (h.counter + 1) 2 : ℕ) : ℚ)
        rtt := h.current_averages.rtt +
          (h.current_frame.rtt - h.current_averages.rtt) /
            ((min (h.counter + 1) 2 : ℕ) : ℚ) } ∧
    (h.counter = 0 →
      (calculate_output h).1 =
        { sent_packets := h.current_frame.sent_packets
          received_packets := h.current_frame.received_packets
          sent_kbps := h.current_frame.sent_kbps
          receive_kbps := h.current_frame.receive_kbps
          packet_loss := lossInput h.current_frame
          rtt := h.current_frame.rtt }) ∧
    (1 ≤ h.counter → min (h.counter + 1) FACTOR = 2) ∧
    ((calculate_output tenSends).1.sent_packets = 10 ∧
      (calculate_output tenSends).1.sent_kbps = 1) := by
  refine ⟨rfl, fun hc => ?_, fun hc => ?_, ?_, ?_⟩
  · simp [calculate_output, average, FACTOR, hc]
  · simp only [FACTOR]
    omega
  · norm_num [calculate_output, average, FACTOR, tenSends, record_sent_info,
      MetricsHandler.new, Metrics.zero]
  · norm_num [calculate_output, average, FACTOR, tenSends, record_sent_info,
      MetricsHandler.new, Metrics.zero]

/-- Witness for C6: the first call on a fresh handler returns the raw
frame values and the divisor of the second call is 2. -/
theorem calculate_output_smoothing_witness :
    (calculate_output MetricsHandler.new).1 =
      { sent_packets := MetricsHandler.new.current_frame.sent_packets
        received_packets := MetricsHandler.new.current_frame.received_packets
        sent_kbps := MetricsHandler.new.current_frame.sent_kbps
        receive_kbps := MetricsHandler.new.current_frame.receive_kbps
        packet_loss := lossInput MetricsHandler.new.current_frame
        rtt := MetricsHandler.new.current_frame.rtt } ∧
    min (staleHandler.counter + 1) FACTOR = 2 :=
  ⟨(calculate_output_smoothing MetricsHandler.new).2.1 rfl,
    (calculate_output_smoothing staleHandler).2.2.1 (by decide)⟩

/-- Counterexample for C7: a handler whose previous snapshot recorded
ten sent packets has an empty current frame, yet `calculate_output`
returns `sent_packets = 5`, not an all-zero snapshot. -/
theorem calculate_output_empty_frame_counterexample :
    staleHandler.current_frame = Metrics.zero ∧
    (calculate_output staleHandler).1.sent_packets = 5 ∧
    (calculate_output staleHandler).1 ≠ Metrics.zero := by
  refine ⟨rfl, ?_, fun hcontra => ?_⟩
  · norm_num [calculate_output, average, FACTOR, staleHandler, Metrics.zero, lossInput]
  · have h5 : (calculate_output staleHandler).1.sent_packets = 0 := by
      rw [hcontra]
      rfl
    norm_num [calculate_output, average, FACTOR, staleHandler, Metrics.zero,
      lossInput] at h5

/-- C7 (amended): `calculate_output` on an empty frame never divides by
zero — the smoothing divisor `min(counter + 1, 2)` is nonzero and the
packet-loss term fed into the smoothing is 0 whenever the frame's
`sent_packets` is 0; each output field is then the previous average
damped toward zero by one smoothing step, and the output is all-zero
whenever the previous snapshot is all-zero (in particular on a fresh
handler). -/
theorem calculate_output_empty_frame (h : MetricsHandler) :
    ((min (h.counter + 1) FACTOR : ℕ) : ℚ) ≠ 0 ∧
    (h.current_frame.sent_packets = 0 → lossInput h.current_frame = 0) ∧
    (h.current_frame = Metrics.zero →
      (calculate_output h).1 =
        { sent_packets := h.current_averages.sent_packets -
            h.current_averages.sent_packets / ((min (h.counter + 1) FACTOR : ℕ) : ℚ)
          received_packets := h.current_averages.received_packets -
            h.current_averages.received_packets / ((min (h.counter + 1) FACTOR : ℕ) : ℚ)
          sent_kbps := h.current_averages.sent_kbps -
            h.current_averages.sent_kbps / ((min (h.counter + 1) FACTOR : ℕ) : ℚ)
          receive_kbps := h.current_averages.receive_kbps -
            h.current_averages.receive_kbps / ((min (h.counter + 1) FACTOR : ℕ) : ℚ)
          packet_loss := h.current_averages.packet_loss -
            h.current_averages.packet_loss / ((min (h.counter + 1) FACTOR : ℕ) : ℚ)
          rtt := h.current_averages.rtt -
            h.current_averages.rtt / ((min (h.counter + 1) FACTOR : ℕ) : ℚ) } ∧
      (h.current_averages = Metrics.zero →
        (calculate_output h).1 = Metrics.zero ∧
        (calculate_output h).2.current_averages = Metrics.zero)) := by
  have hd : 0 < min (h.counter + 1) FACTOR := by
    simp only [FACTOR]
    omega
  refine ⟨by exact_mod_cast hd.ne', fun h0 => by simp [lossInput, h0], fun hf => ⟨?_, fun ha => ?_⟩⟩
  · simp [calculate_output, average, FACTOR, hf, lossInput, Metrics.zero]
    ring_nf
    tauto
  · simp [calculate_output, average, FACTOR, hf, ha, lossInput, Metrics.zero]

/-- Witness for C7 (amended): on a fresh handler (empty frame, all-zero
previous snapshot) the output is all-zero and the loss term is 0. -/
theorem calculate_output_empty_frame_witness :
    (calculate_output MetricsHandler.new).1 = Metrics.zero ∧
    lossInput MetricsHandler.new.current_frame = 0 :=
  ⟨(((calculate_output_empty_frame MetricsHandler.new).2.2 rfl).2 rfl).1,
    (calculate_output_empty_frame MetricsHandler.new).2.1 rfl⟩

/-- C8: `record_rtt` adds exactly the absolute value of the sample to
the frame's accumulated rtt — a negative sample contributes the same
amount as its magnitude — so a `record_rtt` call never decreases the
frame's rtt. -/
theorem record_rtt_abs (h : MetricsHandler) (s : ℚ) :
    (record_rtt h s).current_frame.rtt = h.current_frame.rtt + |s| ∧
    (record_rtt h (-s)).current_frame.rtt = (record_rtt h s).current_frame.rtt ∧
    h.current_frame.rtt ≤ (record_rtt h s).current_frame.rtt := by
  refine ⟨rfl, by simp [record_rtt], ?_⟩
  simp only [record_rtt]
  exact le_add_of_nonneg_right (abs_nonneg s)

/-- C9: every `calculate_output` call resets the current frame to the
all-zero default in the very state it returns, so a second call with no
recording in between sees an empty frame, and the stored averages of
the returned state are exactly the produced snapshot. -/
theorem calculate_output_resets_frame (h : MetricsHandler) :
    (calculate_output h).2.current_frame = Metrics.zero ∧
    (calculate_output (calculate_output h).2).2.current_frame = Metrics.zero ∧
    (calculate_output h).2.current_averages = (calculate_output h).1 :=
  ⟨rfl, rfl, rfl⟩

/-- C10: when a `process_packet` call with a successfully processed
non-empty payload, or a `process_event` call, causes the connection to
become established, the call emits exactly one Connect event and that
event is the very first action of the call — before every Packet event
produced from the payload and before every wire packet dispatched for
the user send; when the call does not establish the connection it emits
no Connect event, and a payload whose processing fails emits no Connect
event and leaves both direction flags (hence establishment) unchanged. -/
theorem connect_emission (c : VirtualConnection) (pi : IncomingFn) (po : OutgoingFn)
    (payload : List ℕ) (event : Packet) (time : ℕ) :
    (∀ packets inner', payload ≠ [] →
      pi c.inner payload time = Except.ok (packets, inner') →
      ((is_established c = false ∧
          is_established (process_packet c pi payload time).1 = true) →
        (process_packet c pi payload time).2.countP isConnect = 1 ∧
          (process_packet c pi payload time).2.head? =
            some (Action.sendEvent c.remote_address
              (SocketEvent.Connect c.remote_address))) ∧
      (¬(is_established c = false ∧
          is_established (process_packet c pi payload time).1 = true) →
        (process_packet c pi payload time).2.countP isConnect = 0) ∧
      (process_packet c pi payload time).2.drop
          ((process_packet c pi payload time).2.countP isConnect) =
        packets.map (fun p =>
          Action.sendEvent c.remote_address (SocketEvent.Packet p))) ∧
    (payload ≠ [] → pi c.inner payload time = Except.error () →
      (process_packet c pi payload time).2.countP isConnect = 0 ∧
      (process_packet c pi payload time).1.ever_recvd = c.ever_recvd ∧
      (process_packet c pi payload time).1.ever_sent = c.ever_sent ∧
      is_established (process_packet c pi payload time).1 = is_established c) ∧
    ((is_established c = false ∧
        is_established (process_event c po event time).1 = true) →
      (process_event c po event time).2.countP isConnect = 1 ∧
        (process_event c po event time).2.head? =
          some (Action.sendEvent c.remote_address
            (SocketEvent.Connect c.remote_address))) ∧
    (¬(is_established c = false ∧
        is_established (process_event c po event time).1 = true) →
      (process_event c po event time).2.countP isConnect = 0) := by
  have hmap : ∀ (packets : List Packet),
      (packets.map (fun p =>
        Action.sendEvent c.remote_address (SocketEvent.Packet p))).countP isConnect = 0 := by
    intro packets
    induction packets with
    | nil => rfl
    | cons p ps ih => simp [isConnect, ih]
  have hwire : ∀ ps, (send_packets c.remote_address ps).countP isConnect = 0 := by
    intro ps
    cases ps with
    | ok l =>
      induction l with
      | nil => rfl
      | cons x xs ih => simp [send_packets, isConnect, ih]
    | error e => rfl
  refine ⟨fun packets inner' hne hok => ?_, fun hne herr => ?_, ?_, ?_⟩
  · have htr : process_packet c pi payload time =
        ({ c with inner := inner', ever_recvd := true },
          (if (!is_established c) && c.ever_sent then
            [Action.sendEvent c.remote_address (SocketEvent.Connect c.remote_address)]
          else []) ++
            packets.map (fun p =>
              Action.sendEvent c.remote_address (SocketEvent.Packet p))) := by
      simp [process_packet, hne, hok, record_recv, is_established]
    rw [htr]
    by_cases hs : c.ever_sent = true <;> by_cases hr : c.ever_recvd = true <;>
      simp [is_established, hs, hr, isConnect, List.countP_append, hmap]
  · have htr : process_packet c pi payload time = (c, []) := by
      simp [process_packet, hne, herr]
    rw [htr]
    exact ⟨rfl, rfl, rfl, rfl⟩
  · intro hest
    have htr : process_event c po event time =
        ({ c with ever_sent := true },
          (if (!is_established c) && c.ever_recvd then
            [Action.sendEvent c.remote_address (SocketEvent.Connect c.remote_address)]
          else []) ++
            (Action.outgoingCall
                (PacketInfo.user_packet event.payload event.delivery event.ordering) none ::
              send_packets c.remote_address
                (po (PacketInfo.user_packet event.payload event.delivery event.ordering)
                  none time))) := by
      simp [process_event, record_send, is_established]
    rw [htr] at hest ⊢
    rcases hest with ⟨hnot, hnow⟩
    have hr : c.ever_recvd = true := by
      simpa [is_established] using hnow
    have hs : ¬c.ever_sent = true := by
      intro hcontra
      simp [is_established, hcontra, hr] at hnot
    simp [is_established, hr, hs, isConnect, List.countP_append, List.countP_cons, hwire]
  · intro hnotest
    have htr : process_event c po event time =
        ({ c with ever_sent := true },
          (if (!is_established c) && c.ever_recvd then
            [Action.sendEvent c.remote_address (SocketEvent.Connect c.remote_address)]
          else []) ++
            (Action.outgoingCall
                (PacketInfo.user_packet event.payload event.delivery event.ordering) none ::
              send_packets c.remote_address
                (po (PacketInfo.user_packet event.payload event.delivery event.ordering)
                  none time))) := by
      simp [process_event, record_send, is_established]
    rw [htr] at hnotest ⊢
    by_cases hs : c.ever_sent = true <;> by_cases hr : c.ever_recvd = true <;>
      simp [is_established, hs, hr, isConnect, List.countP_append, List.countP_cons,
        hwire] at hnotest ⊢

/-- Witness for C10: a connection that has only sent becomes
established by a successfully processed payload and the Connect event
comes first; a failing payload leaves establishment unchanged; a
connection that has only received becomes established by a user send
and the Connect event precedes the wire packets. -/
theorem connect_emission_witness :
    ((process_packet connHalf okIncoming [3] 1).2.countP isConnect = 1 ∧
      (process_packet connHalf okIncoming [3] 1).2.head? =
        some (Action.sendEvent connHalf.remote_address
          (SocketEvent.Connect connHalf.remote_address))) ∧
    (process_packet connHalf errIncoming [3] 1).2.countP isConnect = 0 ∧
    ((process_event connRecvOnly okOutgoing pkt0 1).2.countP isConnect = 1 ∧
      (process_event connRecvOnly okOutgoing pkt0 1).2.head? =
        some (Action.sendEvent connRecvOnly.remote_address
          (SocketEvent.Connect connRecvOnly.remote_address))) :=
  ⟨((connect_emission connHalf okIncoming okOutgoing [3] pkt0 1).1 [pkt0]
      connHalf.inner (by decide) rfl).1 (by decide),
    ((connect_emission connHalf errIncoming okOutgoing [3] pkt0 1).2.1
      (by decide) rfl).1,
    (connect_emission connRecvOnly okIncoming okOutgoing [3] pkt0 1).2.2.1
      (by decide)⟩

end Laminar
